import Mathlib

/-!
Shallow embedding of `packages/tracing/src/browser/metrics.ts`
(the Performance Timeline → Trace Span Projector).

JavaScript numbers are modelled as rationals (`ℚ`); a JavaScript value
that may be `undefined` or `NaN` is modelled as `Option ℚ` (`none` covers
both: each is falsy and propagates through arithmetic to a non-comparing
value). Millisecond timestamps are converted to seconds by `msToSec`,
exactly as in the source.
-/

namespace Metrics

/-- `msToSec` from `../utils`: divide a millisecond time by 1000. -/
def msToSec (time : ℚ) : ℚ := time / 1000

/-- JavaScript truthiness of a possibly-absent number:
`undefined`, `NaN` and `0` are falsy. -/
def truthy : Option ℚ → Bool
  | none => false
  | some q => q != 0

/-- The span context handed to `_startChild` / `Transaction.startChild`;
spans are not mutated after creation, so the created span carries exactly
these fields. -/
structure SpanData where
  description : String
  op : String
  startTimestamp : Option ℚ
  endTimestamp : Option ℚ
  data : List (String × Option ℚ) := []
deriving DecidableEq

/-- `BrowserContext` from the source: three independently optional fields. -/
structure BrowserContext where
  effectiveConnectionType : Option String := none
  deviceMemory : Option ℚ := none
  hardwareConcurrency : Option ℚ := none
deriving DecidableEq

/-- A measurement map `name → { value }`; assignment is last-write-wins. -/
def msSet (m : List (String × ℚ)) (k : String) (v : ℚ) : List (String × ℚ) :=
  (m.filter (fun p => p.1 ≠ k)) ++ [(k, v)]

/-- The transaction as seen by this core: a read-only `op` tag, a mutable
`startTimestamp`, the owned child spans, and the attachment points written
by `setContexts` / `setMeasurements`. -/
structure Transaction where
  op : String
  startTimestamp : ℚ
  spans : List SpanData := []
  contexts : Option BrowserContext := none
  measurements : Option (List (String × ℚ)) := none
deriving DecidableEq

/-- Modelled from the spec: `Transaction.startChild(spanContext)` (defined in
`../transaction`, outside this fragment) creates a child span from the given
span context and adds it to the transaction's owned spans. -/
def Transaction.startChild (t : Transaction) (ctx : SpanData) : Transaction :=
  { t with spans := t.spans ++ [ctx] }

/-- Modelled from the spec: `Transaction.setContexts` attaches the named
context record (here the `browser` context) to the transaction. -/
def Transaction.setContexts (t : Transaction) (c : BrowserContext) : Transaction :=
  { t with contexts := some c }

/-- Modelled from the spec: `Transaction.setMeasurements` attaches the
accumulated measurement set to the transaction. -/
def Transaction.setMeasurements (t : Transaction) (m : List (String × ℚ)) : Transaction :=
  { t with measurements := some m }

/-- `_startChild`: pull the transaction's start back when the child's start
is truthy and earlier, then create the child. -/
def _startChild (transaction : Transaction) (ctx : SpanData) : Transaction :=
  let transaction :=
    match ctx.startTimestamp with
    | some q =>
      if q ≠ 0 ∧ q < transaction.startTimestamp then
        { transaction with startTimestamp := q }
      else transaction
    | none => transaction
  transaction.startChild ctx

/-- A performance timeline entry, flattened over the fields the source
reads: the common fields are always-present numbers, the per-kind
sub-fields are optional. -/
structure PerfEntry where
  entryType : String
  name : String
  startTime : ℚ
  duration : ℚ
  unloadEventStart : Option ℚ := none
  unloadEventEnd : Option ℚ := none
  domContentLoadedEventStart : Option ℚ := none
  domContentLoadedEventEnd : Option ℚ := none
  loadEventStart : Option ℚ := none
  loadEventEnd : Option ℚ := none
  connectStart : Option ℚ := none
  connectEnd : Option ℚ := none
  domainLookupStart : Option ℚ := none
  domainLookupEnd : Option ℚ := none
  requestStart : Option ℚ := none
  responseStart : Option ℚ := none
  responseEnd : Option ℚ := none
  initiatorType : Option String := none
  transferSize : Option ℚ := none
  encodedBodySize : Option ℚ := none
  decodedBodySize : Option ℚ := none
deriving DecidableEq

/-- Dynamic field read `entry[event + "Start"]` for the five navigation
events the source names. -/
def navStart (e : PerfEntry) : String → Option ℚ
  | "unloadEvent" => e.unloadEventStart
  | "domContentLoadedEvent" => e.domContentLoadedEventStart
  | "loadEvent" => e.loadEventStart
  | "connect" => e.connectStart
  | "domainLookup" => e.domainLookupStart
  | _ => none

/-- Dynamic field read `entry[event + "End"]`. -/
def navEnd (e : PerfEntry) : String → Option ℚ
  | "unloadEvent" => e.unloadEventEnd
  | "domContentLoadedEvent" => e.domContentLoadedEventEnd
  | "loadEvent" => e.loadEventEnd
  | "connect" => e.connectEnd
  | "domainLookup" => e.domainLookupEnd
  | _ => none

/-- `addPerformanceNavigationTiming`: emit one browser span for a named
navigation sub-event, skipping silently when start or end is falsy. -/
def addPerformanceNavigationTiming (transaction : Transaction) (entry : PerfEntry)
    (event : String) (timeOrigin : ℚ) : Transaction :=
  match navStart entry event, navEnd entry event with
  | some s, some e =>
    if s = 0 ∨ e = 0 then transaction
    else
      _startChild transaction
        { description := event, op := "browser",
          startTimestamp := some (timeOrigin + msToSec s),
          endTimestamp := some (timeOrigin + msToSec e) }
  | _, _ => transaction

/-- `addRequest`: emit the request and response spans unconditionally;
an absent field propagates as an absent (`NaN`) timestamp. -/
def addRequest (transaction : Transaction) (entry : PerfEntry) (timeOrigin : ℚ) :
    Transaction :=
  let t1 :=
    _startChild transaction
      { description := "request", op := "browser",
        startTimestamp := entry.requestStart.map (fun v => timeOrigin + msToSec v),
        endTimestamp := entry.responseEnd.map (fun v => timeOrigin + msToSec v) }
  _startChild t1
    { description := "response", op := "browser",
      startTimestamp := entry.responseStart.map (fun v => timeOrigin + msToSec v),
      endTimestamp := entry.responseEnd.map (fun v => timeOrigin + msToSec v) }

/-- `addNavigationSpans`: the five named sub-event spans, then
request/response. -/
def addNavigationSpans (transaction : Transaction) (entry : PerfEntry)
    (timeOrigin : ℚ) : Transaction :=
  let t1 := addPerformanceNavigationTiming transaction entry "unloadEvent" timeOrigin
  let t2 := addPerformanceNavigationTiming t1 entry "domContentLoadedEvent" timeOrigin
  let t3 := addPerformanceNavigationTiming t2 entry "loadEvent" timeOrigin
  let t4 := addPerformanceNavigationTiming t3 entry "connect" timeOrigin
  let t5 := addPerformanceNavigationTiming t4 entry "domainLookup" timeOrigin
  addRequest t5 entry timeOrigin

/-- `addMeasureSpans`: one span named after the entry, tagged with its
type; returns the absolute start used by the caller. -/
def addMeasureSpans (transaction : Transaction) (entry : PerfEntry)
    (startTime duration timeOrigin : ℚ) : Transaction × ℚ :=
  let measureStartTimestamp := timeOrigin + startTime
  let measureEndTimestamp := measureStartTimestamp + duration
  (_startChild transaction
    { description := entry.name, op := entry.entryType,
      startTimestamp := some measureStartTimestamp,
      endTimestamp := some measureEndTimestamp },
   measureStartTimestamp)

/-- `addResourceSpans`: skip xhr/fetch-initiated resources entirely;
otherwise emit one resource span carrying the size data present on the
entry, and return its end timestamp. -/
def addResourceSpans (transaction : Transaction) (entry : PerfEntry)
    (resourceName : String) (startTime duration timeOrigin : ℚ) :
    Transaction × Option ℚ :=
  if entry.initiatorType = some "xmlhttprequest" ∨ entry.initiatorType = some "fetch" then
    (transaction, none)
  else
    let data :=
      (match entry.transferSize with
        | some v => [("Transfer Size", some v)]
        | none => []) ++
      (match entry.encodedBodySize with
        | some v => [("Encoded Body Size", some v)]
        | none => []) ++
      (match entry.decodedBodySize with
        | some v => [("Decoded Body Size", some v)]
        | none => [])
    let startTimestamp := timeOrigin + startTime
    let endTimestamp := startTimestamp + duration
    (_startChild transaction
      { description := resourceName,
        op :=
          match entry.initiatorType with
          | some it => if it = "" then "resource" else "resource." ++ it
          | none => "resource",
        startTimestamp := some startTimestamp,
        endTimestamp := some endTimestamp,
        data := data },
     some endTimestamp)

/-- JavaScript `String.prototype.replace` with a string pattern and empty
replacement: remove the first occurrence of `pat` from `s`. -/
def replaceFirst (s pat : String) : String :=
  if pat.isEmpty then s
  else
    match s.splitOn pat with
    | [] => s
    | [x] => x
    | x :: y :: rest => x ++ String.intercalate pat (y :: rest)

/-- JavaScript `s.indexOf(pat) > -1`: `pat` occurs in `s`. -/
def containsSub (s pat : String) : Bool :=
  pat.isEmpty || (s.splitOn pat).length > 1

/-- The mutable locals threaded through the `forEach` scan of
`addPerformanceEntries`, together with the live transaction and the
instance's measurement map. -/
structure ScanAcc where
  transaction : Transaction
  measurements : List (String × ℚ)
  entryScriptStartTimestamp : Option ℚ := none
  tracingInitMarkStartTime : Option ℚ := none
deriving DecidableEq

/-- One iteration of the `forEach` body in `addPerformanceEntries`:
filter pre-transaction noise for navigation transactions, then dispatch
on the entry type. -/
def scanStep (timeOrigin : ℚ) (entryScriptSrc : Option String)
    (locationOrigin : String) (acc : ScanAcc) (entry : PerfEntry) : ScanAcc :=
  let startTime := msToSec entry.startTime
  let duration := msToSec entry.duration
  if acc.transaction.op = "navigation" ∧
      timeOrigin + startTime < acc.transaction.startTimestamp then
    acc
  else
    match entry.entryType with
    | "navigation" =>
      { acc with transaction := addNavigationSpans acc.transaction entry timeOrigin }
    | "mark" | "paint" | "measure" =>
      let r := addMeasureSpans acc.transaction entry startTime duration timeOrigin
      let tim :=
        if acc.tracingInitMarkStartTime = none ∧ entry.name = "sentry-tracing-init" then
          some r.2
        else acc.tracingInitMarkStartTime
      let m1 :=
        if entry.name = "first-paint" then
          msSet (msSet acc.measurements "fp" entry.startTime) "mark.fp" r.2
        else acc.measurements
      let m2 :=
        if entry.name = "first-contentful-paint" then
          msSet (msSet m1 "fcp" entry.startTime) "mark.fcp" r.2
        else m1
      { acc with transaction := r.1, measurements := m2, tracingInitMarkStartTime := tim }
    | "resource" =>
      let resourceName := replaceFirst entry.name locationOrigin
      let r := addResourceSpans acc.transaction entry resourceName startTime duration timeOrigin
      let esst :=
        if acc.entryScriptStartTimestamp = none ∧
            containsSub (entryScriptSrc.getD "") resourceName then
          r.2
        else acc.entryScriptStartTimestamp
      { acc with transaction := r.1, entryScriptStartTimestamp := esst }
    | _ => acc

/-- The whole `forEach` over a timeline suffix, starting from fresh
`undefined` locals. -/
def runScan (timeOrigin : ℚ) (entryScriptSrc : Option String)
    (locationOrigin : String) (transaction : Transaction)
    (measurements : List (String × ℚ)) (entries : List PerfEntry) : ScanAcc :=
  entries.foldl (scanStep timeOrigin entryScriptSrc locationOrigin)
    { transaction := transaction, measurements := measurements }

/-- The post-scan `evaluation` span, emitted only when both the entry
script's end and the tracing-init mark's start were captured. -/
def addEvaluationSpan (acc : ScanAcc) : Transaction :=
  match acc.entryScriptStartTimestamp, acc.tracingInitMarkStartTime with
  | some esst, some tim =>
    _startChild acc.transaction
      { description := "evaluation", op := "script",
        startTimestamp := some esst, endTimestamp := some tim }
  | _, _ => acc.transaction

/-- A `<script>` element as the entry-script loop reads it:
`dataset.entry === 'true'` and `src`. -/
structure ScriptTag where
  dataEntry : Bool
  src : String
deriving DecidableEq

/-- The optional `navigator.connection` capability. -/
structure Connection where
  effectiveType : Option String := none
  rtt : Option ℚ := none
  downlink : Option ℚ := none
deriving DecidableEq

/-- The optional navigator capabilities `_trackNavigator` probes. -/
structure NavigatorInfo where
  connection : Option Connection := none
  deviceMemory : Option ℚ := none
  hardwareConcurrency : Option ℚ := none
deriving DecidableEq

/-- The ambient platform: the feature-detection flags of the gatekeeper,
the timeline, the document's scripts, the window origin and navigator. -/
structure Platform where
  hasGlobal : Bool := true
  hasPerformance : Bool := true
  hasGetEntries : Bool := true
  timeOriginMs : Option ℚ := none
  entries : List PerfEntry := []
  hasDocument : Bool := true
  scripts : List ScriptTag := []
  locationOrigin : String := ""
  navigator : Option NavigatorInfo := none
deriving DecidableEq

/-- The gatekeeper condition of `addPerformanceEntries`: a global object,
a performance object with `getEntries`, and a truthy
`browserPerformanceTimeOrigin`. -/
def platformOk (p : Platform) : Bool :=
  p.hasGlobal && p.hasPerformance && p.hasGetEntries && truthy p.timeOriginMs

/-- The entry-script lookup: the `src` of the first document script whose
`dataset.entry` is the string `true`; `undefined` without a document. -/
def entryScriptSrc (p : Platform) : Option String :=
  if p.hasDocument then (p.scripts.find? (fun s => s.dataEntry)).map (fun s => s.src)
  else none

/-- The instance state of `MetricsInstrumentation`. -/
structure MetricsState where
  measurements : List (String × ℚ) := []
  browserContext : BrowserContext := {}
  performanceCursor : ℕ := 0
deriving DecidableEq

/-- The field initializers of `MetricsInstrumentation`: empty measurement
map, empty browser context, cursor `0`. -/
def initialState : MetricsState := {}

/-- `_trackNavigator`: independently feature-detected copies of connection
type, rtt, downlink, device memory and hardware concurrency. -/
def _trackNavigator (nav : Option NavigatorInfo)
    (measurements : List (String × ℚ)) (ctx : BrowserContext) :
    List (String × ℚ) × BrowserContext :=
  match nav with
  | none => (measurements, ctx)
  | some n =>
    let (measurements, ctx) :=
      match n.connection with
      | none => (measurements, ctx)
      | some c =>
        let ctx :=
          match c.effectiveType with
          | some et => if et = "" then ctx else { ctx with effectiveConnectionType := some et }
          | none => ctx
        let measurements :=
          match c.rtt with
          | some r => msSet measurements "connection.rtt" r
          | none => measurements
        let measurements :=
          match c.downlink with
          | some d => msSet measurements "connection.downlink" d
          | none => measurements
        (measurements, ctx)
    let ctx :=
      match n.deviceMemory with
      | some dm => { ctx with deviceMemory := some dm }
      | none => ctx
    let ctx :=
      match n.hardwareConcurrency with
      | some hc => { ctx with hardwareConcurrency := some hc }
      | none => ctx
    (measurements, ctx)

/-- `addPerformanceEntries`: gatekeeper, incremental scan of the timeline
suffix past the cursor, the optional `evaluation` span, the cursor update
to `max(length - 1, 0)`, and — for pageload transactions only — the
context re-snapshot and the attachment of measurements and contexts. -/
def addPerformanceEntries (p : Platform) (st : MetricsState)
    (transaction : Transaction) : MetricsState × Transaction :=
  if platformOk p then
    let timeOrigin := msToSec (p.timeOriginMs.getD 0)
    let acc := runScan timeOrigin (entryScriptSrc p) p.locationOrigin transaction
      st.measurements (p.entries.drop st.performanceCursor)
    let t1 := addEvaluationSpan acc
    let cursor := max (p.entries.length - 1) 0
    if transaction.op = "pageload" then
      let r := _trackNavigator p.navigator acc.measurements st.browserContext
      ({ measurements := r.1, browserContext := r.2, performanceCursor := cursor },
       (t1.setContexts r.2).setMeasurements r.1)
    else
      ({ st with measurements := acc.measurements, performanceCursor := cursor }, t1)
  else (st, transaction)

/-- The shape of the metric handed to the LCP/FID callbacks: a numeric
value and the contributing timeline entries. -/
structure VitalMetric where
  value : ℚ
  entries : List PerfEntry
deriving DecidableEq

/-- The callback `_trackLCP` installs via `getLCP`: pop the last
contributing entry (no-op when there is none) and write the raw value
under `lcp` and the absolute start under `mark.lcp`. -/
def trackLCPCallback (perfTimeOriginMs : ℚ) (measurements : List (String × ℚ))
    (metric : VitalMetric) : List (String × ℚ) :=
  match metric.entries.getLast? with
  | none => measurements
  | some entry =>
    let timeOrigin := msToSec perfTimeOriginMs
    let startTime := msToSec entry.startTime
    msSet (msSet measurements "lcp" metric.value) "mark.lcp" (timeOrigin + startTime)

/-- The callback `_trackFID` installs via `getFID`: pop the last
contributing entry (no-op when there is none) and write the raw value
under `fid` and the absolute start under `mark.fid`. -/
def trackFIDCallback (perfTimeOriginMs : ℚ) (measurements : List (String × ℚ))
    (metric : VitalMetric) : List (String × ℚ) :=
  match metric.entries.getLast? with
  | none => measurements
  | some entry =>
    let timeOrigin := msToSec perfTimeOriginMs
    let startTime := msToSec entry.startTime
    msSet (msSet measurements "fid" metric.value) "mark.fid" (timeOrigin + startTime)

/-- A navigation entry carrying only the DOM-content-loaded pair of the
worked example. -/
def navTimingExampleEntry : PerfEntry :=
  { entryType := "navigation", name := "page", startTime := 0, duration := 0,
    domContentLoadedEventStart := some 100, domContentLoadedEventEnd := some 150 }

/-- The transaction of the worked example. -/
def navTimingExampleTransaction : Transaction :=
  { op := "pageload", startTimestamp := 1000 }

/-- A first-input entry used to exercise the FID callback. -/
def fidExampleEntry : PerfEntry :=
  { entryType := "first-input", name := "mousedown", startTime := 30, duration := 0 }

/-- A resource entry initiated by `fetch`. -/
def fetchResourceEntry : PerfEntry :=
  { entryType := "resource", name := "https://example.com/api", startTime := 10,
    duration := 5, initiatorType := some "fetch" }

/-- A navigation entry with every optional sub-field absent. -/
def bareNavEntry : PerfEntry :=
  { entryType := "navigation", name := "page", startTime := 0, duration := 0 }

/-- A span context whose start timestamp is the falsy number `0`. -/
def zeroStartCtx : SpanData :=
  { description := "zeroStart", op := "browser",
    startTimestamp := some 0, endTimestamp := some 1 }

/-- A transaction starting at 5 seconds with no children. -/
def lateTransaction : Transaction := { op := "pageload", startTimestamp := 5 }

/-- The containment invariant of §4.3, restricted to children whose start
timestamp is present and nonzero (truthy): the transaction starts no later
than any such child. -/
def BoundaryInv (t : Transaction) : Prop :=
  ∀ s ∈ t.spans, ∀ q : ℚ, s.startTimestamp = some q → q ≠ 0 → t.startTimestamp ≤ q

/-- A plain mark entry. -/
def markEntry : PerfEntry :=
  { entryType := "mark", name := "m1", startTime := 10, duration := 0 }

/-- A platform whose timeline holds exactly one mark entry. -/
def oneMarkPlatform : Platform :=
  { timeOriginMs := some 1000, entries := [markEntry] }

/-- A non-pageload, non-navigation transaction. -/
def customTransaction : Transaction := { op := "custom", startTimestamp := 100000 }

/-- An entry-script resource captured by the fetch instrumentation: its
(origin-stripped) name is empty, so it matches the entry script, but its
initiator makes `addResourceSpans` return no end timestamp. -/
def fetchMatchingResource : PerfEntry :=
  { entryType := "resource", name := "", startTime := 4, duration := 2,
    initiatorType := some "fetch" }

/-- A later, plain resource entry whose name also matches the entry
script. -/
def plainMatchingResource : PerfEntry :=
  { entryType := "resource", name := "", startTime := 10, duration := 5 }

/-- The `sentry-tracing-init` mark. -/
def tracingInitMark : PerfEntry :=
  { entryType := "mark", name := "sentry-tracing-init", startTime := 50, duration := 0 }

/-- A platform whose timeline holds a matching fetch resource, then a
matching plain resource, then the tracing-init mark; the document carries
an entry script. -/
def twoMatchPlatform : Platform :=
  { timeOriginMs := some 2000000,
    entries := [fetchMatchingResource, plainMatchingResource, tracingInitMark],
    scripts := [{ dataEntry := true, src := "app.js" }] }

/- ------------------------------------------------------------------ -/
/- Helper lemmas                                                       -/
/- ------------------------------------------------------------------ -/

theorem startChild_spans (t : Transaction) (c : SpanData) :
    (_startChild t c).spans = t.spans ++ [c] := by
  unfold _startChild Transaction.startChild
  cases c.startTimestamp with
  | none => rfl
  | some q => dsimp only; split <;> rfl

theorem startChild_op (t : Transaction) (c : SpanData) :
    (_startChild t c).op = t.op := by
  unfold _startChild Transaction.startChild
  cases c.startTimestamp with
  | none => rfl
  | some q => dsimp only; split <;> rfl

theorem startChild_start_le (t : Transaction) (c : SpanData) :
    (_startChild t c).startTimestamp ≤ t.startTimestamp := by
  unfold _startChild Transaction.startChild
  cases c.startTimestamp with
  | none => exact le_refl _
  | some q =>
    dsimp only
    split
    · next h => exact le_of_lt h.2
    · exact le_refl _

theorem platformOk_false (p : Platform)
    (h : p.hasGlobal = false ∨ p.hasPerformance = false ∨ p.hasGetEntries = false ∨
      truthy p.timeOriginMs = false) : platformOk p = false := by
  unfold platformOk
  rcases h with h | h | h | h <;> simp [h]

theorem addPerformanceEntries_gate_fail (p : Platform) (st : MetricsState)
    (t : Transaction) (h : platformOk p = false) :
    addPerformanceEntries p st t = (st, t) := by
  unfold addPerformanceEntries
  simp [h]

theorem startChild_inv {t : Transaction} (c : SpanData) (h : BoundaryInv t) :
    BoundaryInv (_startChild t c) := by
  intro s hs q hq hq0
  rw [startChild_spans] at hs
  rcases List.mem_append.1 hs with h1 | h1
  · exact le_trans (startChild_start_le t c) (h s h1 q hq hq0)
  · have hsc : s = c := by simpa using h1
    subst hsc
    unfold _startChild Transaction.startChild
    rw [hq]
    dsimp only
    split
    · exact le_refl q
    · next hcond =>
      push_neg at hcond
      exact hcond hq0

theorem navTiming_inv {t : Transaction} {e : PerfEntry} {event : String} {tom : ℚ}
    (h : BoundaryInv t) : BoundaryInv (addPerformanceNavigationTiming t e event tom) := by
  unfold addPerformanceNavigationTiming
  split
  · split
    · exact h
    · exact startChild_inv _ h
  · exact h

theorem addRequest_inv {t : Transaction} {e : PerfEntry} {tom : ℚ}
    (h : BoundaryInv t) : BoundaryInv (addRequest t e tom) :=
  startChild_inv _ (startChild_inv _ h)

theorem addNavigationSpans_inv {t : Transaction} {e : PerfEntry} {tom : ℚ}
    (h : BoundaryInv t) : BoundaryInv (addNavigationSpans t e tom) :=
  addRequest_inv (navTiming_inv (navTiming_inv (navTiming_inv (navTiming_inv
    (navTiming_inv h)))))

theorem addMeasureSpans_inv {t : Transaction} {e : PerfEntry} {s d tom : ℚ}
    (h : BoundaryInv t) : BoundaryInv (addMeasureSpans t e s d tom).1 :=
  startChild_inv _ h

theorem addResourceSpans_inv {t : Transaction} {e : PerfEntry} {n : String}
    {s d tom : ℚ} (h : BoundaryInv t) :
    BoundaryInv (addResourceSpans t e n s d tom).1 := by
  unfold addResourceSpans
  split
  · exact h
  · exact startChild_inv _ h

theorem scanStep_inv {tom : ℚ} {esrc : Option String} {lo : String} {acc : ScanAcc}
    {e : PerfEntry} (h : BoundaryInv acc.transaction) :
    BoundaryInv (scanStep tom esrc lo acc e).transaction := by
  unfold scanStep
  split <;> dsimp only <;> split <;> first
    | exact h
    | exact addNavigationSpans_inv h
    | exact addMeasureSpans_inv h
    | exact addResourceSpans_inv h

theorem foldl_scanStep_inv (tom : ℚ) (esrc : Option String) (lo : String) :
    ∀ (es : List PerfEntry) (acc : ScanAcc), BoundaryInv acc.transaction →
      BoundaryInv ((es.foldl (scanStep tom esrc lo) acc).transaction) := by
  intro es
  induction es with
  | nil => exact fun acc h => h
  | cons e es ih => exact fun acc h => ih _ (scanStep_inv h)

theorem runScan_inv {tom : ℚ} {esrc : Option String} {lo : String} {t : Transaction}
    {m : List (String × ℚ)} {es : List PerfEntry} (h : BoundaryInv t) :
    BoundaryInv (runScan tom esrc lo t m es).transaction :=
  foldl_scanStep_inv tom esrc lo es _ h

theorem addEvaluationSpan_inv {acc : ScanAcc} (h : BoundaryInv acc.transaction) :
    BoundaryInv (addEvaluationSpan acc) := by
  unfold addEvaluationSpan
  split
  · exact startChild_inv _ h
  · exact h

theorem setContexts_inv {t : Transaction} {c : BrowserContext} (h : BoundaryInv t) :
    BoundaryInv (t.setContexts c) := h

theorem setMeasurements_inv {t : Transaction} {m : List (String × ℚ)}
    (h : BoundaryInv t) : BoundaryInv (t.setMeasurements m) := h

theorem addPerformanceEntries_inv (p : Platform) (st : MetricsState)
    (t : Transaction) (h : BoundaryInv t) :
    BoundaryInv ((addPerformanceEntries p st t).2) := by
  unfold addPerformanceEntries
  split
  · dsimp only
    split
    · exact setMeasurements_inv (setContexts_inv (addEvaluationSpan_inv (runScan_inv h)))
    · exact addEvaluationSpan_inv (runScan_inv h)
  · exact h

theorem addPerformanceEntries_cursor (p : Platform) (st : MetricsState)
    (t : Transaction) (h : platformOk p = true) :
    (addPerformanceEntries p st t).1.performanceCursor =
      max (p.entries.length - 1) 0 := by
  unfold addPerformanceEntries
  simp only [h, if_true]
  split <;> rfl

theorem addPerformanceEntries_spansEq (p : Platform) (st : MetricsState)
    (t : Transaction) (h : platformOk p = true) :
    (addPerformanceEntries p st t).2.spans =
      (addEvaluationSpan (runScan (msToSec (p.timeOriginMs.getD 0))
        (entryScriptSrc p) p.locationOrigin t st.measurements
        (p.entries.drop st.performanceCursor))).spans := by
  unfold addPerformanceEntries
  simp only [h, if_true]
  split <;> rfl

theorem startChild_contexts (t : Transaction) (c : SpanData) :
    (_startChild t c).contexts = t.contexts := by
  unfold _startChild Transaction.startChild
  cases c.startTimestamp with
  | none => rfl
  | some q => dsimp only; split <;> rfl

theorem startChild_meas (t : Transaction) (c : SpanData) :
    (_startChild t c).measurements = t.measurements := by
  unfold _startChild Transaction.startChild
  cases c.startTimestamp with
  | none => rfl
  | some q => dsimp only; split <;> rfl

theorem navTiming_contexts (t : Transaction) (e : PerfEntry) (event : String)
    (tom : ℚ) :
    (addPerformanceNavigationTiming t e event tom).contexts = t.contexts := by
  unfold addPerformanceNavigationTiming
  split
  · split
    · rfl
    · exact startChild_contexts _ _
  · rfl

theorem navTiming_meas (t : Transaction) (e : PerfEntry) (event : String)
    (tom : ℚ) :
    (addPerformanceNavigationTiming t e event tom).measurements = t.measurements := by
  unfold addPerformanceNavigationTiming
  split
  · split
    · rfl
    · exact startChild_meas _ _
  · rfl

theorem addRequest_contexts (t : Transaction) (e : PerfEntry) (tom : ℚ) :
    (addRequest t e tom).contexts = t.contexts := by
  unfold addRequest
  exact (startChild_contexts _ _).trans (startChild_contexts _ _)

theorem addRequest_meas (t : Transaction) (e : PerfEntry) (tom : ℚ) :
    (addRequest t e tom).measurements = t.measurements := by
  unfold addRequest
  exact (startChild_meas _ _).trans (startChild_meas _ _)

theorem addNavigationSpans_contexts (t : Transaction) (e : PerfEntry) (tom : ℚ) :
    (addNavigationSpans t e tom).contexts = t.contexts := by
  unfold addNavigationSpans
  rw [addRequest_contexts, navTiming_contexts, navTiming_contexts,
    navTiming_contexts, navTiming_contexts, navTiming_contexts]

theorem addNavigationSpans_meas (t : Transaction) (e : PerfEntry) (tom : ℚ) :
    (addNavigationSpans t e tom).measurements = t.measurements := by
  unfold addNavigationSpans
  rw [addRequest_meas, navTiming_meas, navTiming_meas, navTiming_meas,
    navTiming_meas, navTiming_meas]

theorem addMeasureSpans_contexts (t : Transaction) (e : PerfEntry)
    (s d tom : ℚ) : (addMeasureSpans t e s d tom).1.contexts = t.contexts :=
  startChild_contexts _ _

theorem addMeasureSpans_meas (t : Transaction) (e : PerfEntry)
    (s d tom : ℚ) : (addMeasureSpans t e s d tom).1.measurements = t.measurements :=
  startChild_meas _ _

theorem addResourceSpans_contexts (t : Transaction) (e : PerfEntry) (n : String)
    (s d tom : ℚ) : (addResourceSpans t e n s d tom).1.contexts = t.contexts := by
  unfold addResourceSpans
  split
  · rfl
  · exact startChild_contexts _ _

theorem addResourceSpans_meas (t : Transaction) (e : PerfEntry) (n : String)
    (s d tom : ℚ) :
    (addResourceSpans t e n s d tom).1.measurements = t.measurements := by
  unfold addResourceSpans
  split
  · rfl
  · exact startChild_meas _ _

theorem scanStep_contexts (tom : ℚ) (esrc : Option String) (lo : String)
    (acc : ScanAcc) (e : PerfEntry) :
    (scanStep tom esrc lo acc e).transaction.contexts = acc.transaction.contexts := by
  unfold scanStep
  split <;> dsimp only <;> split <;> first
    | rfl
    | exact addNavigationSpans_contexts _ _ _
    | exact addMeasureSpans_contexts _ _ _ _ _
    | exact addResourceSpans_contexts _ _ _ _ _ _

theorem scanStep_meas (tom : ℚ) (esrc : Option String) (lo : String)
    (acc : ScanAcc) (e : PerfEntry) :
    (scanStep tom esrc lo acc e).transaction.measurements =
      acc.transaction.measurements := by
  unfold scanStep
  split <;> dsimp only <;> split <;> first
    | rfl
    | exact addNavigationSpans_meas _ _ _
    | exact addMeasureSpans_meas _ _ _ _ _
    | exact addResourceSpans_meas _ _ _ _ _ _

theorem foldl_scanStep_contexts (tom : ℚ) (esrc : Option String) (lo : String) :
    ∀ (es : List PerfEntry) (acc : ScanAcc),
      ((es.foldl (scanStep tom esrc lo) acc).transaction.contexts =
        acc.transaction.contexts) := by
  intro es
  induction es with
  | nil => intro acc; rfl
  | cons e es ih => intro acc; rw [List.foldl_cons, ih, scanStep_contexts]

theorem foldl_scanStep_meas (tom : ℚ) (esrc : Option String) (lo : String) :
    ∀ (es : List PerfEntry) (acc : ScanAcc),
      ((es.foldl (scanStep tom esrc lo) acc).transaction.measurements =
        acc.transaction.measurements) := by
  intro es
  induction es with
  | nil => intro acc; rfl
  | cons e es ih => intro acc; rw [List.foldl_cons, ih, scanStep_meas]

theorem addEvaluationSpan_contexts (acc : ScanAcc) :
    (addEvaluationSpan acc).contexts = acc.transaction.contexts := by
  unfold addEvaluationSpan
  split
  · exact startChild_contexts _ _
  · rfl

theorem addEvaluationSpan_meas (acc : ScanAcc) :
    (addEvaluationSpan acc).measurements = acc.transaction.measurements := by
  unfold addEvaluationSpan
  split
  · exact startChild_meas _ _
  · rfl

theorem scanStep_tim_some (tom : ℚ) (esrc : Option String) (lo : String)
    (acc : ScanAcc) (e : PerfEntry) (v : ℚ)
    (h : acc.tracingInitMarkStartTime = some v) :
    (scanStep tom esrc lo acc e).tracingInitMarkStartTime = some v := by
  unfold scanStep
  split <;> dsimp only <;> split <;> simp [h]

theorem scanStep_esst_some (tom : ℚ) (esrc : Option String) (lo : String)
    (acc : ScanAcc) (e : PerfEntry) (v : ℚ)
    (h : acc.entryScriptStartTimestamp = some v) :
    (scanStep tom esrc lo acc e).entryScriptStartTimestamp = some v := by
  unfold scanStep
  split <;> dsimp only <;> split <;> simp [h]

theorem foldl_tim_some (tom : ℚ) (esrc : Option String) (lo : String) :
    ∀ (es : List PerfEntry) (acc : ScanAcc) (v : ℚ),
      acc.tracingInitMarkStartTime = some v →
      ((es.foldl (scanStep tom esrc lo) acc).tracingInitMarkStartTime = some v) := by
  intro es
  induction es with
  | nil => intro acc v h; exact h
  | cons e es ih =>
    intro acc v h
    rw [List.foldl_cons]
    exact ih _ v (scanStep_tim_some tom esrc lo acc e v h)

theorem foldl_esst_some (tom : ℚ) (esrc : Option String) (lo : String) :
    ∀ (es : List PerfEntry) (acc : ScanAcc) (v : ℚ),
      acc.entryScriptStartTimestamp = some v →
      ((es.foldl (scanStep tom esrc lo) acc).entryScriptStartTimestamp = some v) := by
  intro es
  induction es with
  | nil => intro acc v h; exact h
  | cons e es ih =>
    intro acc v h
    rw [List.foldl_cons]
    exact ih _ v (scanStep_esst_some tom esrc lo acc e v h)

/- ------------------------------------------------------------------ -/
/- Claim theorems                                                      -/
/- ------------------------------------------------------------------ -/

/-- C5: when the platform lacks the performance-timeline capability (no
global object, no performance object, no `getEntries`, or no truthy time
origin), `addPerformanceEntries` returns immediately with no effect: the
instance state and the transaction are unchanged (and, being a total
function, it never throws). -/
theorem addPerformanceEntries_gatekeeper (p : Platform) (st : MetricsState)
    (t : Transaction)
    (h : p.hasGlobal = false ∨ p.hasPerformance = false ∨ p.hasGetEntries = false ∨
      truthy p.timeOriginMs = false) :
    addPerformanceEntries p st t = (st, t) :=
  addPerformanceEntries_gate_fail p st t (platformOk_false p h)

/-- C5 witness: a platform with no time origin leaves state and
transaction untouched. -/
theorem addPerformanceEntries_gatekeeper_witness :
    addPerformanceEntries { timeOriginMs := none } initialState
      { op := "pageload", startTimestamp := 5 } =
      (initialState, { op := "pageload", startTimestamp := 5 }) :=
  addPerformanceEntries_gatekeeper _ _ _ (Or.inr (Or.inr (Or.inr rfl)))

/-- C7: a resource entry whose initiator type is `xmlhttprequest` or
`fetch` produces no span and no end timestamp: `addResourceSpans` returns
the transaction unchanged together with `none`. -/
theorem addResourceSpans_dedup (t : Transaction) (e : PerfEntry) (n : String)
    (s d o : ℚ)
    (h : e.initiatorType = some "xmlhttprequest" ∨ e.initiatorType = some "fetch") :
    addResourceSpans t e n s d o = (t, none) := by
  unfold addResourceSpans
  rw [if_pos h]

/-- C7 witness: a concrete fetch-initiated resource entry is skipped. -/
theorem addResourceSpans_dedup_witness :
    addResourceSpans { op := "pageload", startTimestamp := 3 } fetchResourceEntry
      "/api" 10 5 1000 = ({ op := "pageload", startTimestamp := 3 }, none) :=
  addResourceSpans_dedup _ _ _ _ _ _ (Or.inr rfl)

/-- C8: with `timeOrigin = 1000.0` seconds and a navigation entry whose
`domContentLoadedEventStart` is 100 ms and `domContentLoadedEventEnd` is
150 ms, the emitted span has description `domContentLoadedEvent`, op
`browser`, start `1000.1` s and end `1000.15` s. -/
theorem navTimingExample :
    (addPerformanceNavigationTiming navTimingExampleTransaction navTimingExampleEntry
      "domContentLoadedEvent" 1000).spans =
      [{ description := "domContentLoadedEvent", op := "browser",
         startTimestamp := some (10001 / 10), endTimestamp := some (20003 / 20) }] := by
  simp only [addPerformanceNavigationTiming, navTimingExampleEntry,
    navTimingExampleTransaction, navStart, navEnd, _startChild,
    Transaction.startChild, msToSec]
  norm_num

/-- C6: for each firing of the LCP or FID callback, an empty contributing
entries list writes nothing; otherwise only the last entry is used, and
exactly the raw value (under `lcp` / `fid`) and the seconds-converted
absolute start `timeOrigin + startTime` (under `mark.lcp` / `mark.fid`)
are written. -/
theorem vitalCallback_lastEntry (tom : ℚ) (m : List (String × ℚ))
    (metric : VitalMetric) :
    (metric.entries = [] →
      trackLCPCallback tom m metric = m ∧ trackFIDCallback tom m metric = m) ∧
    (∀ e, metric.entries.getLast? = some e →
      trackLCPCallback tom m metric =
        msSet (msSet m "lcp" metric.value) "mark.lcp"
          (msToSec tom + msToSec e.startTime) ∧
      trackFIDCallback tom m metric =
        msSet (msSet m "fid" metric.value) "mark.fid"
          (msToSec tom + msToSec e.startTime)) := by
  constructor
  · intro h
    unfold trackLCPCallback trackFIDCallback
    rw [h]
    exact ⟨rfl, rfl⟩
  · intro e he
    unfold trackLCPCallback trackFIDCallback
    rw [he]
    exact ⟨rfl, rfl⟩

/-- C2 counterexample: `_startChild` given the startTimestamp `0` — which
is earlier than the transaction's start `5` — does not pull the
transaction's start back: the start stays `5`, while the transaction now
owns a span starting at `0`. -/
theorem zeroStartNotPulledBack :
    (_startChild lateTransaction zeroStartCtx).startTimestamp = 5 ∧
    zeroStartCtx.startTimestamp = some 0 ∧
    (0 : ℚ) < lateTransaction.startTimestamp ∧
    (_startChild lateTransaction zeroStartCtx).spans = [zeroStartCtx] := by
  refine ⟨?_, rfl, by norm_num [lateTransaction], ?_⟩
  · simp [_startChild, Transaction.startChild, lateTransaction, zeroStartCtx]
  · simp [_startChild, Transaction.startChild, lateTransaction, zeroStartCtx]

/-- C2 (amended): whenever `_startChild` is given a truthy (present and
nonzero) startTimestamp earlier than the transaction's current start, the
transaction's start is pulled back to equal it; and after any dispatch of
timeline entries (`addPerformanceEntries`), the transaction's start is ≤
the start of every owned span whose start timestamp is truthy. -/
theorem boundaryContainment (p : Platform) (st : MetricsState)
    (t u : Transaction) (c : SpanData) (q : ℚ) :
    (c.startTimestamp = some q → q ≠ 0 → q < u.startTimestamp →
      (_startChild u c).startTimestamp = q) ∧
    (BoundaryInv t → BoundaryInv ((addPerformanceEntries p st t).2)) := by
  constructor
  · intro h1 h2 h3
    unfold _startChild Transaction.startChild
    rw [h1]
    dsimp only
    rw [if_pos ⟨h2, h3⟩]
  · exact addPerformanceEntries_inv p st t

/-- C2 witness: a child starting at `1` pulls a transaction starting at
`5` back to `1`; a span-less transaction satisfies the containment
invariant after a full `addPerformanceEntries` call. -/
theorem boundaryContainment_witness :
    (_startChild lateTransaction
      { description := "d", op := "o", startTimestamp := some 1,
        endTimestamp := some 2 }).startTimestamp = 1 ∧
    BoundaryInv ((addPerformanceEntries oneMarkPlatform initialState
      customTransaction).2) :=
  ⟨(boundaryContainment oneMarkPlatform initialState customTransaction
      lateTransaction _ 1).1 rfl (by norm_num) (by norm_num [lateTransaction]),
   (boundaryContainment oneMarkPlatform initialState customTransaction
      lateTransaction
      { description := "d", op := "o", startTimestamp := some 1,
        endTimestamp := some 2 } 1).2
     (by intro s hs q hq hq0; simp [customTransaction] at hs)⟩

/-- C4 counterexample: a navigation entry with every sub-field absent
(`requestStart`, `responseStart`, `responseEnd` included) still emits the
`request` and `response` spans — with absent timestamps — contradicting
the claim that those derived spans are skipped when their fields are
missing. -/
theorem navRequestNotSkipped :
    (addNavigationSpans lateTransaction bareNavEntry 1000).spans =
      [{ description := "request", op := "browser",
         startTimestamp := none, endTimestamp := none },
       { description := "response", op := "browser",
         startTimestamp := none, endTimestamp := none }] := by
  simp [addNavigationSpans, addPerformanceNavigationTiming, navStart, navEnd,
    addRequest, _startChild, Transaction.startChild, bareNavEntry, lateTransaction]

/-- C4 (amended): each of the five named navigation spans is emitted only
when both its start and end sub-fields are present and truthy — a missing
or falsy sub-field skips that span silently — but the derived `request`
and `response` spans are emitted unconditionally, carrying absent
timestamps when their source fields are missing. -/
theorem navTimingSkipAndRequest (t : Transaction) (e : PerfEntry)
    (event : String) (tom : ℚ) :
    (truthy (navStart e event) = false ∨ truthy (navEnd e event) = false →
      addPerformanceNavigationTiming t e event tom = t) ∧
    (∀ s en, navStart e event = some s → navEnd e event = some en →
      s ≠ 0 → en ≠ 0 →
      (addPerformanceNavigationTiming t e event tom).spans =
        t.spans ++ [{ description := event, op := "browser",
                      startTimestamp := some (tom + msToSec s),
                      endTimestamp := some (tom + msToSec en) }]) ∧
    (addRequest t e tom).spans = t.spans ++
      [{ description := "request", op := "browser",
         startTimestamp := e.requestStart.map (fun v => tom + msToSec v),
         endTimestamp := e.responseEnd.map (fun v => tom + msToSec v) },
       { description := "response", op := "browser",
         startTimestamp := e.responseStart.map (fun v => tom + msToSec v),
         endTimestamp := e.responseEnd.map (fun v => tom + msToSec v) }] := by
  refine ⟨?_, ?_, ?_⟩
  · intro h
    unfold addPerformanceNavigationTiming
    cases hs : navStart e event with
    | none => rfl
    | some s =>
      cases he : navEnd e event with
      | none => rfl
      | some en =>
        rw [hs, he] at h
        have hz : s = 0 ∨ en = 0 := by
          rcases h with h | h
          · exact Or.inl (by simpa [truthy] using h)
          · exact Or.inr (by simpa [truthy] using h)
        simp only [hs, he]
        rw [if_pos hz]
  · intro s en hs he hs0 he0
    unfold addPerformanceNavigationTiming
    simp only [hs, he]
    rw [if_neg (by tauto)]
    exact startChild_spans _ _
  · unfold addRequest
    rw [startChild_spans, startChild_spans]
    simp

/-- C4 witness: a navigation entry with an absent `loadEventStart` skips
the load span; the worked example's DOM-content-loaded span is emitted. -/
theorem navTimingSkipAndRequest_witness :
    addPerformanceNavigationTiming lateTransaction bareNavEntry "loadEvent" 1000 =
      lateTransaction ∧
    (addPerformanceNavigationTiming navTimingExampleTransaction navTimingExampleEntry
      "domContentLoadedEvent" 1000).spans =
      navTimingExampleTransaction.spans ++
        [{ description := "domContentLoadedEvent", op := "browser",
           startTimestamp := some (1000 + msToSec 100),
           endTimestamp := some (1000 + msToSec 150) }] :=
  ⟨(navTimingSkipAndRequest lateTransaction bareNavEntry "loadEvent" 1000).1
      (Or.inl (by simp [navStart, bareNavEntry, truthy])),
   (navTimingSkipAndRequest navTimingExampleTransaction navTimingExampleEntry
      "domContentLoadedEvent" 1000).2.1 100 150
      (by simp [navStart, navTimingExampleEntry])
      (by simp [navEnd, navTimingExampleEntry])
      (by norm_num) (by norm_num)⟩

/-- C3: the cursor starts at 0; a gatekeeper-passing call sets it to
`max(length - 1, 0)` and a failing call leaves it unchanged; whenever the
cursor is one a scan of (a prefix of) this timeline could have produced
(that is, at most `max(length - 1, 0)`), a call never decreases it; and a
gatekeeper-passing call dispatches exactly the suffix
`entries.drop cursor`, so entries at indices below the cursor are never
re-dispatched. -/
theorem cursorInvariant (p : Platform) (st : MetricsState) (t : Transaction) :
    initialState.performanceCursor = 0 ∧
    (platformOk p = true →
      (addPerformanceEntries p st t).1.performanceCursor =
        max (p.entries.length - 1) 0) ∧
    (platformOk p = false →
      (addPerformanceEntries p st t).1.performanceCursor = st.performanceCursor) ∧
    (st.performanceCursor ≤ max (p.entries.length - 1) 0 →
      st.performanceCursor ≤ (addPerformanceEntries p st t).1.performanceCursor) ∧
    (platformOk p = true →
      (addPerformanceEntries p st t).2.spans =
        (addEvaluationSpan (runScan (msToSec (p.timeOriginMs.getD 0))
          (entryScriptSrc p) p.locationOrigin t st.measurements
          (p.entries.drop st.performanceCursor))).spans) := by
  refine ⟨rfl, addPerformanceEntries_cursor p st t, ?_, ?_,
    addPerformanceEntries_spansEq p st t⟩
  · intro h
    rw [addPerformanceEntries_gate_fail p st t h]
  · intro hle
    cases hok : platformOk p with
    | true =>
      rw [addPerformanceEntries_cursor p st t hok]
      exact hle
    | false =>
      rw [addPerformanceEntries_gate_fail p st t hok]

/-- C3 witness: on a one-entry timeline the cursor lands on
`max(1 - 1, 0) = 0` and has not decreased from its initial value. -/
theorem cursorInvariant_witness :
    (addPerformanceEntries oneMarkPlatform initialState
      customTransaction).1.performanceCursor =
      max (oneMarkPlatform.entries.length - 1) 0 ∧
    initialState.performanceCursor ≤
      (addPerformanceEntries oneMarkPlatform initialState
        customTransaction).1.performanceCursor :=
  ⟨(cursorInvariant oneMarkPlatform initialState customTransaction).2.1
      (by norm_num [platformOk, oneMarkPlatform, truthy]),
   (cursorInvariant oneMarkPlatform initialState customTransaction).2.2.2.1
      (by simp [initialState])⟩

/-- C1 counterexample: with a one-entry timeline (a single mark), a first
call to `addPerformanceEntries` creates one span and leaves the cursor at
`max(1 - 1, 0) = 0`, so a second call with no timeline growth re-processes
that same entry and creates a second span — the claim that the second call
creates no additional child spans is false. -/
theorem secondCallAddsSpan :
    (addPerformanceEntries oneMarkPlatform initialState
      customTransaction).2.spans.length = 1 ∧
    (addPerformanceEntries oneMarkPlatform
      (addPerformanceEntries oneMarkPlatform initialState customTransaction).1
      (addPerformanceEntries oneMarkPlatform initialState
        customTransaction).2).2.spans.length = 2 := by
  constructor <;>
    (simp [addPerformanceEntries, platformOk, truthy, runScan, scanStep,
      addMeasureSpans, _startChild, Transaction.startChild, addEvaluationSpan,
      entryScriptSrc, msToSec, initialState, oneMarkPlatform, customTransaction,
      markEntry, msSet]
     norm_num [addPerformanceEntries, platformOk, truthy, runScan, scanStep,
      addMeasureSpans, _startChild, Transaction.startChild, addEvaluationSpan,
      entryScriptSrc, msToSec, initialState, oneMarkPlatform, customTransaction,
      markEntry, msSet])
  all_goals simp [Transaction.setContexts, Transaction.setMeasurements]

/-- C1 (amended): a repeat call with no timeline growth — the cursor
already at `max(length - 1, 0)` — re-dispatches exactly the suffix from
index `length - 1`, which holds at most one entry (the final one); with an
empty timeline it creates no spans at all. Only the deliberate off-by-one
re-processing of the final entry distinguishes the second call from a
no-op. -/
theorem idempotentUpToLastEntry (p : Platform) (st : MetricsState)
    (t : Transaction) (hok : platformOk p = true)
    (hc : st.performanceCursor = max (p.entries.length - 1) 0) :
    (p.entries.drop st.performanceCursor).length ≤ 1 ∧
    (p.entries = [] → (addPerformanceEntries p st t).2.spans = t.spans) ∧
    (addPerformanceEntries p st t).2.spans =
      (addEvaluationSpan (runScan (msToSec (p.timeOriginMs.getD 0))
        (entryScriptSrc p) p.locationOrigin t st.measurements
        (p.entries.drop (max (p.entries.length - 1) 0)))).spans := by
  refine ⟨?_, ?_, ?_⟩
  · rw [hc, List.length_drop]
    omega
  · intro he
    rw [addPerformanceEntries_spansEq p st t hok, he]
    simp [runScan, addEvaluationSpan]
  · rw [addPerformanceEntries_spansEq p st t hok, hc]

/-- C1 witness: the one-mark platform in its post-call cursor state
re-dispatches at most one entry. -/
theorem idempotentUpToLastEntry_witness :
    (oneMarkPlatform.entries.drop initialState.performanceCursor).length ≤ 1 :=
  (idempotentUpToLastEntry oneMarkPlatform initialState customTransaction
    (by norm_num [platformOk, oneMarkPlatform, truthy]) rfl).1

/-- C9: a gatekeeper-passing `addPerformanceEntries` call attaches the
accumulated measurement set and the browser context record to the
transaction exactly when the transaction's operation kind is `pageload`;
for every other operation kind the transaction's `contexts` and
`measurements` are left unchanged. -/
theorem pageloadAttachIff (p : Platform) (st : MetricsState) (t : Transaction)
    (h : platformOk p = true) :
    (t.op = "pageload" →
      (addPerformanceEntries p st t).2.contexts =
        some ((addPerformanceEntries p st t).1.browserContext) ∧
      (addPerformanceEntries p st t).2.measurements =
        some ((addPerformanceEntries p st t).1.measurements)) ∧
    (t.op ≠ "pageload" →
      (addPerformanceEntries p st t).2.contexts = t.contexts ∧
      (addPerformanceEntries p st t).2.measurements = t.measurements) := by
  constructor
  · intro hop
    unfold addPerformanceEntries
    simp only [h, if_true]
    rw [if_pos hop]
    exact ⟨rfl, rfl⟩
  · intro hop
    unfold addPerformanceEntries
    simp only [h, if_true]
    rw [if_neg hop]
    dsimp only
    constructor
    · rw [addEvaluationSpan_contexts]
      exact foldl_scanStep_contexts _ _ _ _ _
    · rw [addEvaluationSpan_meas]
      exact foldl_scanStep_meas _ _ _ _ _

/-- C9 witness: a pageload transaction gets the browser context attached;
a custom-op transaction keeps its measurements untouched. -/
theorem pageloadAttachIff_witness :
    (addPerformanceEntries oneMarkPlatform initialState lateTransaction).2.contexts =
      some ((addPerformanceEntries oneMarkPlatform initialState
        lateTransaction).1.browserContext) ∧
    (addPerformanceEntries oneMarkPlatform initialState
      customTransaction).2.measurements = customTransaction.measurements :=
  ⟨((pageloadAttachIff oneMarkPlatform initialState lateTransaction
      (by norm_num [platformOk, oneMarkPlatform, truthy])).1 rfl).1,
   ((pageloadAttachIff oneMarkPlatform initialState customTransaction
      (by norm_num [platformOk, oneMarkPlatform, truthy])).2
      (by simp [customTransaction])).2⟩

/-- C10 counterexample: with an entry script on the page, a timeline whose
first matching resource is fetch-initiated (so its dispatch yields no end
timestamp) followed by a second matching plain resource and the
tracing-init mark, the emitted `evaluation` span starts at the *second*
matching resource's end timestamp — the first matching entry did not
determine the entry-script end timestamp. -/
theorem secondMatchSetsEntryScript :
    ((addPerformanceEntries twoMatchPlatform initialState
        customTransaction).2.spans.filter
      (fun s => s.description = "evaluation")) =
      [{ description := "evaluation", op := "script",
         startTimestamp := some (400003 / 200),
         endTimestamp := some (40001 / 20) }] := by
  simp [addPerformanceEntries, platformOk, truthy, runScan, scanStep,
    addMeasureSpans, addResourceSpans, _startChild, Transaction.startChild,
    addEvaluationSpan, entryScriptSrc, msToSec, initialState, twoMatchPlatform,
    customTransaction, fetchMatchingResource, plainMatchingResource,
    tracingInitMark, msSet, replaceFirst, containsSub,
    show ("" : String).isEmpty = true from rfl]
  norm_num [show ("" : String).isEmpty = true from rfl]
  simp

/-- C10 (amended): within a scan, once the tracing-init reference
timestamp or the entry-script end timestamp holds a defined value it is
never overwritten by later entries — so the first entry to produce a
defined value determines it; the tracing-init reference is set (to the
entry's absolute start) by the first mark/paint/measure entry named
`sentry-tracing-init` that passes the navigation filter. An xhr/fetch
resource that matches the entry script, however, assigns an *undefined*
end timestamp, leaving a later matching resource free to set it. -/
theorem firstWinsOnceSet (tom : ℚ) (esrc : Option String) (lo : String)
    (es : List PerfEntry) (acc : ScanAcc) (e : PerfEntry) (v : ℚ) :
    (acc.tracingInitMarkStartTime = some v →
      (es.foldl (scanStep tom esrc lo) acc).tracingInitMarkStartTime = some v) ∧
    (acc.entryScriptStartTimestamp = some v →
      (es.foldl (scanStep tom esrc lo) acc).entryScriptStartTimestamp = some v) ∧
    (acc.tracingInitMarkStartTime = none →
      (e.entryType = "mark" ∨ e.entryType = "paint" ∨ e.entryType = "measure") →
      e.name = "sentry-tracing-init" →
      ¬(acc.transaction.op = "navigation" ∧
        tom + msToSec e.startTime < acc.transaction.startTimestamp) →
      (scanStep tom esrc lo acc e).tracingInitMarkStartTime =
        some (tom + msToSec e.startTime)) := by
  refine ⟨foldl_tim_some tom esrc lo es acc v, foldl_esst_some tom esrc lo es acc v, ?_⟩
  intro h0 ht hn hf
  unfold scanStep
  dsimp only
  rw [if_neg hf]
  rcases ht with h | h | h <;> rw [h] <;> simp [h0, hn, addMeasureSpans]

/-- C10 witness: a pre-set tracing-init value survives folding a mark
entry, and the tracing-init mark itself sets the value from a fresh
accumulator. -/
theorem firstWinsOnceSet_witness :
    (([markEntry].foldl (scanStep 1 none "")
      { transaction := customTransaction, measurements := [],
        entryScriptStartTimestamp := none,
        tracingInitMarkStartTime := some 7 }).tracingInitMarkStartTime = some 7) ∧
    ((scanStep 1 none ""
      { transaction := customTransaction, measurements := [] }
      tracingInitMark).tracingInitMarkStartTime =
        some (1 + msToSec tracingInitMark.startTime)) :=
  ⟨(firstWinsOnceSet 1 none "" [markEntry]
      { transaction := customTransaction, measurements := [],
        entryScriptStartTimestamp := none,
        tracingInitMarkStartTime := some 7 } markEntry 7).1 rfl,
   (firstWinsOnceSet 1 none "" [markEntry]
      { transaction := customTransaction, measurements := [] }
      tracingInitMark 7).2.2 rfl (Or.inl rfl) rfl
      (by simp [customTransaction])⟩

/-- C6 witness: an empty LCP firing writes nothing; a one-entry FID firing
writes `fid` and `mark.fid` from the last entry. -/
theorem vitalCallback_lastEntry_witness :
    trackLCPCallback 2000 [] { value := 7, entries := [] } = [] ∧
    trackFIDCallback 2000 [] { value := 7, entries := [fidExampleEntry] } =
      msSet (msSet [] "fid" 7) "mark.fid"
        (msToSec 2000 + msToSec fidExampleEntry.startTime) :=
  ⟨((vitalCallback_lastEntry 2000 [] { value := 7, entries := [] }).1 rfl).1,
   ((vitalCallback_lastEntry 2000 [] { value := 7, entries := [fidExampleEntry] }).2
      fidExampleEntry rfl).2⟩

end Metrics
